import Mathlib

/-!
Verification of the beeper-todesktop maubot plugin (`beeper_todesktop.py`)
against its natural-language specification.

The development shallowly embeds the plugin's webhook-processing core:

* the build-log scan (`url_pattern` / `re.search` as used by
  `find_todesktop_build`), embedded as an executable matcher on `List Char`
  that reproduces Python's leftmost search with greedy character classes and
  the `.`-matches-any-character-except-newline semantics of the unescaped
  dots in the pattern;
* the two resolver handlers `handle_todesktop` and `handle_android`;
* message composition (the parameter dictionary and `str.format`);
* the dispatcher `handle_webhook` and the HTTP endpoint `webhook`.

External collaborators (the CI trace fetch and the chat send) are modelled
as oracles passed in an `Effects` record; the observable side effects
(fetch attempts, send attempts, log lines) are collected in a `Trace`.
Python exceptions are modelled explicitly: `aiohttp` HTTP exceptions carry
a status and body, while `KeyError` / `ValueError` are separate
constructors so that exceptions escaping the dispatcher uncaught remain
distinguishable from responses the dispatcher itself produces.
-/

set_option linter.unusedVariables false

namespace Todesktop

/-- Character class `[a-z0-9]` of `url_pattern`. -/
def isLowerAlnum (c : Char) : Bool :=
  ('a' ≤ c && c ≤ 'z') || ('0' ≤ c && c ≤ '9')

/-- Literal run of `url_pattern` before the first unescaped dot. -/
def lit1 : List Char := "https://dl".toList

/-- Literal run of `url_pattern` between the two unescaped dots. -/
def lit2 : List Char := "todesktop".toList

/-- Literal run of `url_pattern` after the second unescaped dot. -/
def lit3 : List Char := "com/".toList

/-- Literal run of `url_pattern` between the two capture groups. -/
def lit4 : List Char := "/builds/".toList

/-- Match a literal character sequence at the head of the input, returning
the remainder on success. -/
def dropLit : List Char → List Char → Option (List Char)
  | [], l => some l
  | _ :: _, [] => none
  | p :: ps, c :: l => if c = p then dropLit ps l else none

/-- Attempt to match `url_pattern` at the start of `l`, returning the text
of the whole match (`group(0)`).  This embeds Python
`re.compile("https://dl.todesktop.com/([a-z0-9]+)/builds/([a-z0-9]+)")`
matching anchored at one position: the unescaped dots match any character
except a newline, and each `[a-z0-9]+` is greedy.  Greedy maximal munch is
exact here because `/builds/` starts with `/`, which is outside the class,
so regex backtracking can never shorten the first group into a match. -/
def matchAt (l : List Char) : Option (List Char) :=
  match dropLit lit1 l with
  | none => none
  | some r1 =>
    match r1 with
    | [] => none
    | c1 :: r2 =>
      if c1 = '\n' then none else
      match dropLit lit2 r2 with
      | none => none
      | some r3 =>
        match r3 with
        | [] => none
        | c2 :: r4 =>
          if c2 = '\n' then none else
          match dropLit lit3 r4 with
          | none => none
          | some r5 =>
            if r5.takeWhile isLowerAlnum = [] then none else
            match dropLit lit4 (r5.dropWhile isLowerAlnum) with
            | none => none
            | some r7 =>
              if r7.takeWhile isLowerAlnum = [] then none else
              some (lit1 ++ c1 :: (lit2 ++ c2 :: (lit3 ++
                r5.takeWhile isLowerAlnum ++ lit4 ++ r7.takeWhile isLowerAlnum)))

/-- Embedding of `url_pattern.search`: try `matchAt` at every start
position from the left and return the first success, as Python's
`re.search` does. -/
def searchUrl : List Char → Option (List Char)
  | [] => none
  | c :: rest =>
    match matchAt (c :: rest) with
    | some m => some m
    | none => searchUrl rest

/-- The scan `url_pattern.search(text)` applied to a log text, returning
`group(0)` of the match, as consumed by `find_todesktop_build` and
`handle_todesktop`. -/
def find_build_url (s : String) : Option String :=
  (searchUrl s.data).map String.mk

/-- Spec-side predicate: `s` is a well-formed token of the literal shape
`https://dl.todesktop.com/<lowercase-alphanumeric>/builds/<lowercase-alphanumeric>`
with both dots being actual dot characters. -/
def wellFormedTok (s : List Char) : Prop :=
  ∃ id1 id2 : List Char, id1 ≠ [] ∧ id2 ≠ [] ∧
    (∀ c ∈ id1, isLowerAlnum c = true) ∧ (∀ c ∈ id2, isLowerAlnum c = true) ∧
    s = "https://dl.todesktop.com/".toList ++ id1 ++ "/builds/".toList ++ id2

/-- Spec-side predicate describing what `url_pattern` actually accepts:
like `wellFormedTok`, except that each of the two dot positions may hold an
arbitrary character other than a newline (the dots in the pattern are not
escaped). -/
def relaxedTok (s : List Char) : Prop :=
  ∃ (c1 c2 : Char) (id1 id2 : List Char),
    c1 ≠ '\n' ∧ c2 ≠ '\n' ∧ id1 ≠ [] ∧ id2 ≠ [] ∧
    (∀ c ∈ id1, isLowerAlnum c = true) ∧ (∀ c ∈ id2, isLowerAlnum c = true) ∧
    s = lit1 ++ c1 :: (lit2 ++ c2 :: (lit3 ++ id1 ++ lit4 ++ id2))

/-! ## Data model of the dispatcher -/

/-- Template fragments of a `message_format` string as consumed by Python's
`str.format`: literal text interleaved with named placeholders. -/
inductive TemplatePart
  | lit (s : String)
  | field (k : String)
deriving DecidableEq

/-- First-match association-list lookup, embedding Python `dict` subscript
(`d[k]`); keys of the embedded dictionaries are unique, so first-match
agrees with Python. `none` corresponds to a raised `KeyError`. -/
def dictGet {κ ν : Type} [DecidableEq κ] : List (κ × ν) → κ → Option ν
  | [], _ => none
  | (k, v) :: t, key => if key = k then some v else dictGet t key

/-- One project's entry in the `projects` section of the plugin config.
`apk_path_map` is optional because it is only present for android-type
projects; accessing it when absent raises `KeyError` in the source. -/
structure ProjectCfg where
  type : String
  build_name_map : List (String × String)
  message_format : List TemplatePart
  apk_path_map : Option (List (String × String))
deriving DecidableEq

/-- The plugin configuration (class `Config`): the shared webhook secret,
the GitLab base URL and token used by the trace fetch, and the project
table keyed by numeric project ID. -/
structure BotConfig where
  webhook_secret : String
  gitlab_url : String
  gitlab_token : String
  projects : List (Nat × ProjectCfg)

/-- The `repository` object of a GitLab webhook payload (only `homepage`
is read). A `none` field models the key being absent from the JSON. -/
structure Repository where
  homepage : Option String
deriving DecidableEq

/-- The JSON webhook payload fields the plugin reads.  Each field is
optional: `none` models the key being absent, and reading it raises
`KeyError`. -/
structure Payload where
  project_id : Option Nat
  build_id : Option Nat
  build_status : Option String
  build_name : Option String
  sha : Option String
  repository : Option Repository
deriving DecidableEq

/-- Python exceptions relevant to the dispatcher: `aiohttp` HTTP
exceptions (carrying the response they render to), `KeyError` (carrying
the missing key rendered as a string), and `ValueError` (carrying its
message). -/
inductive HandlerError
  | http (status : Nat) (text : String)
  | keyErr (key : String)
  | valueErr (msg : String)
deriving DecidableEq

/-- Oracles for the two external collaborators: the CI trace fetch
(`ClientSession.get` + `raise_for_status` + body text, keyed by project ID
and job ID) and the Matrix send (`client.send_markdown`, keyed by room and
message).  An `Except.error` models the call raising an exception. -/
structure Effects where
  fetchTrace : Nat → Nat → Except Unit String
  send : String → String → Except Unit Unit

/-- Observable side effects of one dispatch: trace-fetch attempts, chat
send attempts (room, message), and `self.log.exception` lines. -/
structure Trace where
  fetches : List (Nat × Nat)
  sent : List (String × String)
  logs : List String
deriving DecidableEq

/-- The empty side-effect trace. -/
def emptyTrace : Trace := ⟨[], [], []⟩

/-- Response text raised by `handle_todesktop` when the trace fetch (or a
field access inside its `try` block) fails. -/
def fetchFailText : String :=
  "500: Internal Server Error\nFailed to get todesktop build ID\n"

/-- Response text raised by `handle_webhook` when the Matrix send fails. -/
def sendFailText : String :=
  "500: Internal Server Error\nFailed to send notification to Matrix\n"

/-- Embedding of `TodesktopBot.handle_todesktop` (and the
`find_todesktop_build` call inside it).  The `try` block covers the field
accesses `data["project_id"]` / `data["build_id"]` and the fetch itself;
any exception there is logged and re-raised as a 500 HTTP error.  A trace
text with no pattern match raises `ValueError("Todesktop URL not found")`
outside the `try`. -/
def handle_todesktop (eff : Effects) (data : Payload) :
    Except HandlerError (List (String × String)) × Trace :=
  match data.project_id, data.build_id with
  | some pid, some jid =>
    (match eff.fetchTrace pid jid with
     | .error _ =>
       (.error (.http 500 fetchFailText),
        ⟨[(pid, jid)], [], ["Error finding todesktop build ID"]⟩)
     | .ok text =>
       match find_build_url text with
       | none => (.error (.valueErr "Todesktop URL not found"), ⟨[(pid, jid)], [], []⟩)
       | some u => (.ok [("todesktop_url", u)], ⟨[(pid, jid)], [], []⟩))
  | none, _ =>
    (.error (.http 500 fetchFailText), ⟨[], [], ["Error finding todesktop build ID"]⟩)
  | some _, none =>
    (.error (.http 500 fetchFailText), ⟨[], [], ["Error finding todesktop build ID"]⟩)

/-- Embedding of `TodesktopBot.handle_android`: a pure function (it takes
no `Effects` oracle and produces no `Trace`), mirroring that the source
performs no network call.  Field and map accesses follow the source's
evaluation order; a missing key is an uncaught `KeyError`. -/
def handle_android (project : ProjectCfg) (data : Payload) :
    Except HandlerError (List (String × String)) :=
  match project.apk_path_map with
  | none => .error (.keyErr "apk_path_map")
  | some apkMap =>
    match data.build_name with
    | none => .error (.keyErr "build_name")
    | some bn =>
      match dictGet apkMap bn with
      | none => .error (.keyErr bn)
      | some apkPath =>
        match data.repository with
        | none => .error (.keyErr "repository")
        | some repo =>
          match repo.homepage with
          | none => .error (.keyErr "homepage")
          | some repoUrl =>
            match data.build_id with
            | none => .error (.keyErr "build_id")
            | some jid =>
              .ok [("apk_url",
                repoUrl ++ "/-/jobs/" ++ toString jid ++ "/artifacts/browse/" ++ apkPath)]

/-- Drop every trailing `/` of a string.  Helper for `yarlDiv`. -/
def stripSlashes (s : String) : String :=
  String.mk (s.data.reverse.dropWhile (fun c => c = '/')).reverse

/-- Model of yarl's `/` operator (`URL(base) / segment`) for the URLs this
plugin builds: the appended segment is joined to the base after collapsing
any trailing slashes of the base path.  Percent-encoding of the segment is
not modelled; the segments appended here are assumed free of characters
that yarl would quote. -/
def yarlDiv (base seg : String) : String :=
  stripSlashes base ++ "/" ++ seg

/-- Python string slicing `s[:n]` on code points. -/
def strTake (s : String) (n : Nat) : String := String.mk (s.data.take n)

/-- Substitute a parameter map into a template, embedding
`message_format.format(**params)`: each placeholder is looked up in the
map, and a missing placeholder raises `KeyError`. -/
def renderTemplate (parts : List TemplatePart) (params : List (String × String)) :
    Except HandlerError String :=
  match parts with
  | [] => .ok ""
  | .lit s :: rest => (renderTemplate rest params).map (fun r => s ++ r)
  | .field k :: rest =>
    match dictGet params k with
    | none => .error (.keyErr k)
    | some v => (renderTemplate rest params).map (fun r => v ++ r)

/-- Embedding of the message composition of `handle_webhook` (lines 89-94
of the source): build the base parameter dictionary with the mapped build
name, the sha truncated to 8 characters, and the commit URL built with
yarl's `/` operator, merge it with the resolver's extra parameters
(`extra` listed first so that, as in a Python dict literal, a duplicate
key from `extra` wins), and substitute into `message_format`.  Field
accesses follow the source's evaluation order and raise uncaught
`KeyError` when missing. -/
def composeMessage (project : ProjectCfg) (data : Payload)
    (extra : List (String × String)) : Except HandlerError String :=
  match data.build_name with
  | none => .error (.keyErr "build_name")
  | some bn =>
    match dictGet project.build_name_map bn with
    | none => .error (.keyErr bn)
    | some display =>
      match data.sha with
      | none => .error (.keyErr "sha")
      | some sha =>
        match data.repository with
        | none => .error (.keyErr "repository")
        | some repo =>
          match repo.homepage with
          | none => .error (.keyErr "homepage")
          | some home =>
            renderTemplate project.message_format
              (extra ++
                [("build_name", display),
                 ("commit_hash", strTake sha 8),
                 ("commit_url", yarlDiv (yarlDiv (yarlDiv home "-") "commit") sha)])

/-- Embedding of `TodesktopBot.handle_webhook`: project lookup (a missing
`project_id` key or an unknown project both hit the `except KeyError` and
become a 404), the build-status gate, dispatch through the
`webhook_handlers` table (an unrecognized type is an uncaught `KeyError`),
the `except ValueError` turning a resolver skip into a normal outcome,
message composition, and the Matrix send with its `except` block. -/
def handle_webhook (cfg : BotConfig) (eff : Effects) (room : String)
    (data : Payload) : Except HandlerError String × Trace :=
  match data.project_id with
  | none => (.error (.http 404 "404: Unknown project ID"), emptyTrace)
  | some pid =>
    match dictGet cfg.projects pid with
    | none => (.error (.http 404 "404: Unknown project ID"), emptyTrace)
    | some project =>
      match data.build_status with
      | none => (.error (.keyErr "build_status"), emptyTrace)
      | some st =>
        if st = "success" then
          let step :=
            if project.type = "todesktop" then handle_todesktop eff data
            else if project.type = "android" then (handle_android project data, emptyTrace)
            else (.error (.keyErr project.type), emptyTrace)
          match step with
          | (.error (.valueErr m), tr) => (.ok m, tr)
          | (.error e, tr) => (.error e, tr)
          | (.ok extra, tr) =>
            match composeMessage project data extra with
            | .error e => (.error e, tr)
            | .ok msg =>
              match eff.send room msg with
              | .error _ =>
                (.error (.http 500 sendFailText),
                 ⟨tr.fetches, tr.sent ++ [(room, msg)],
                  tr.logs ++ ["Error sending message to Matrix"]⟩)
              | .ok _ =>
                (.ok "Notification sent",
                 ⟨tr.fetches, tr.sent ++ [(room, msg)], tr.logs⟩)
        else (.ok "Non-success webhook ignored", emptyTrace)

/-- Result of the parse of the request body (`request.json()`): a
content-type mismatch, a JSON decode failure, or the parsed payload. -/
inductive BodyParse
  | badContentType
  | badJson
  | ok (data : Payload)
deriving DecidableEq

/-- An inbound HTTP request as seen by the `webhook` endpoint: the
`X-Gitlab-Token` header, the `room` query parameter, and the body parse
outcome. -/
structure HttpRequest where
  token : Option String
  room : Option String
  body : BodyParse

/-- Outcome of the endpoint as observed by the HTTP client: either a
response (including responses rendered by the framework from raised
`aiohttp` HTTP exceptions), or an exception escaping the handler uncaught,
left to the serving framework's generic error handling. -/
inductive WebResult
  | resp (status : Nat) (text : String)
  | unhandled (e : HandlerError)
deriving DecidableEq

/-- Embedding of the `webhook` endpoint (`@web.post("/webhooks")`): token
check, room parameter check, body parse, then the shielded
`handle_webhook` call.  A raised `aiohttp` HTTP exception renders as its
response; any other exception escapes as `WebResult.unhandled`. -/
def webhook (cfg : BotConfig) (eff : Effects) (req : HttpRequest) :
    WebResult × Trace :=
  match req.token with
  | none =>
    (.resp 401 "401: Unauthorized\nMissing auth token header\n", emptyTrace)
  | some token =>
    if token = cfg.webhook_secret then
      match req.room with
      | none =>
        (.resp 400
          "400: Bad request\nNo room specified. Did you forget the ?room query parameter?\n",
         emptyTrace)
      | some room =>
        match req.body with
        | .badContentType => (.resp 406 "406: Not Acceptable\n", emptyTrace)
        | .badJson => (.resp 400 "400: Bad request\nRequest body not JSON\n", emptyTrace)
        | .ok data =>
          match handle_webhook cfg eff room data with
          | (.ok msg, tr) => (.resp 200 ("200: OK\n" ++ msg ++ "\n"), tr)
          | (.error (.http s t), tr) => (.resp s t, tr)
          | (.error e, tr) => (.unhandled e, tr)
    else (.resp 401 "401: Unauthorized\n", emptyTrace)

/-! ## Lemmas about the build-log scan -/

/-- Inverting `dropLit`: it succeeds exactly when the literal is a prefix,
returning the remainder. -/
theorem dropLit_eq_some {p : List Char} : ∀ {l r : List Char},
    dropLit p l = some r ↔ l = p ++ r := by
  induction p with
  | nil => intro l r; simp [dropLit]
  | cons x ps ih =>
    intro l r
    cases l with
    | nil => simp [dropLit]
    | cons c t =>
      by_cases h : c = x
      · subst h; simp [dropLit, ih]
      · simp [dropLit, h]

/-- `dropLit` applied to its own literal plus a remainder. -/
theorem dropLit_append (p r : List Char) : dropLit p (p ++ r) = some r :=
  dropLit_eq_some.mpr rfl

/-- A run of characters satisfying `p` followed by a list whose head fails
`p` is split exactly at the boundary by `takeWhile` and `dropWhile`. -/
theorem takeWhile_append_run {p : Char → Bool} :
    ∀ {a b : List Char}, (∀ c ∈ a, p c = true) →
      (∀ c t, b = c :: t → p c = false) →
      (a ++ b).takeWhile p = a ∧ (a ++ b).dropWhile p = b := by
  intro a
  induction a with
  | nil =>
    intro b ha hb
    cases b with
    | nil => simp
    | cons c t => simp [List.takeWhile_cons, List.dropWhile_cons, hb c t rfl]
  | cons x xs ih =>
    intro b ha hb
    have hx : p x = true := ha x (by simp)
    have h2 := ih (fun c hc => ha c (by simp [hc])) hb
    simp [List.takeWhile_cons, List.dropWhile_cons, hx, h2.1, h2.2]

/-- Soundness of the anchored matcher: a successful match is a token the
pattern accepts and a prefix of the input. -/
theorem matchAt_eq_some {l s : List Char} (h : matchAt l = some s) :
    relaxedTok s ∧ s <+: l := by
  unfold matchAt at h
  split at h
  · exact absurd h (by simp)
  case _ r1 h1 =>
  split at h
  · exact absurd h (by simp)
  case _ c1 r2 =>
  split at h
  · exact absurd h (by simp)
  case _ hc1 =>
  split at h
  · exact absurd h (by simp)
  case _ r3 h2 =>
  split at h
  · exact absurd h (by simp)
  case _ c2 r4 =>
  split at h
  · exact absurd h (by simp)
  case _ hc2 =>
  split at h
  · exact absurd h (by simp)
  case _ r5 h3 =>
  split at h
  · exact absurd h (by simp)
  case _ g1 =>
  split at h
  · exact absurd h (by simp)
  case _ r7 h4 =>
  split at h
  · exact absurd h (by simp)
  case _ g2 =>
  have hs := Option.some.inj h
  subst hs
  constructor
  · exact ⟨c1, c2, _, _, hc1, hc2, g1, g2,
      fun c hc => List.mem_takeWhile_imp hc,
      fun c hc => List.mem_takeWhile_imp hc, rfl⟩
  · have e1 : l = lit1 ++ (c1 :: r2) := dropLit_eq_some.mp h1
    have e2 : r2 = lit2 ++ (c2 :: r4) := dropLit_eq_some.mp h2
    have e3 : r4 = lit3 ++ r5 := dropLit_eq_some.mp h3
    have e4 : r5.dropWhile isLowerAlnum = lit4 ++ r7 := dropLit_eq_some.mp h4
    have e5 : r5 = r5.takeWhile isLowerAlnum ++ (lit4 ++ r7) := by
      rw [← e4, List.takeWhile_append_dropWhile]
    have e6 : r7 = r7.takeWhile isLowerAlnum ++ r7.dropWhile isLowerAlnum := by
      rw [List.takeWhile_append_dropWhile]
    refine ⟨r7.dropWhile isLowerAlnum, ?_⟩
    rw [e1, e2, e3]
    conv_rhs => rw [e5]
    conv_rhs => rw [e6]
    simp [List.append_assoc]

/-- The literal between the capture groups starts with a slash, a
character outside the class. -/
theorem lit4_cons : lit4 = '/' :: "builds/".toList := by decide

/-- Completeness of the anchored matcher: if some accepted token is a
prefix of the input, the matcher succeeds. -/
theorem matchAt_isSome {l s : List Char} (ht : relaxedTok s) (hp : s <+: l) :
    (matchAt l).isSome := by
  obtain ⟨c1, c2, id1, id2, hc1, hc2, hid1, hid2, ha1, ha2, rfl⟩ := ht
  obtain ⟨rest, rfl⟩ := hp
  have e1 : (lit1 ++ c1 :: (lit2 ++ c2 :: (lit3 ++ id1 ++ lit4 ++ id2))) ++ rest
      = lit1 ++ (c1 :: (lit2 ++ (c2 :: (lit3 ++ (id1 ++ (lit4 ++ (id2 ++ rest))))))) := by
    simp [List.append_assoc]
  rw [e1]
  have hrun := takeWhile_append_run (p := isLowerAlnum)
    (a := id1) (b := lit4 ++ (id2 ++ rest)) ha1
    (by
      intro c t hct
      rw [lit4_cons, List.cons_append] at hct
      injection hct with h1 h2
      subst h1
      decide)
  have htw2 : (id2 ++ rest).takeWhile isLowerAlnum ≠ [] := by
    cases id2 with
    | nil => exact absurd rfl hid2
    | cons d t =>
      have hd : isLowerAlnum d = true := ha2 d (by simp)
      simp [List.takeWhile_cons, hd]
  unfold matchAt
  simp only [dropLit_append, hc1, hc2, hrun.1, hrun.2, htw2, hid1, if_neg, if_false,
    Option.isSome_some]

/-- The pattern never matches the empty input. -/
theorem matchAt_nil : matchAt [] = none := by decide

/-- A successful search is a successful anchored match at some position,
with the matcher failing at every earlier position (Python `re.search`
leftmost semantics). -/
theorem searchUrl_eq_some : ∀ {l s : List Char}, searchUrl l = some s →
    ∃ i, matchAt (l.drop i) = some s ∧ ∀ j, j < i → matchAt (l.drop j) = none := by
  intro l
  induction l with
  | nil => intro s h; simp [searchUrl] at h
  | cons c t ih =>
    intro s h
    unfold searchUrl at h
    cases hm : matchAt (c :: t) with
    | some m =>
      rw [hm] at h
      refine ⟨0, ?_, ?_⟩
      · simpa [hm] using h
      · intro j hj; omega
    | none =>
      rw [hm] at h
      obtain ⟨i, h1, h2⟩ := ih h
      refine ⟨i + 1, by simpa [List.drop_succ_cons] using h1, ?_⟩
      intro j hj
      cases j with
      | zero => simpa using hm
      | succ j2 =>
        rw [List.drop_succ_cons]
        exact h2 j2 (by omega)

/-- If the anchored matcher succeeds at any position, the search succeeds. -/
theorem searchUrl_isSome_of : ∀ {l : List Char} (i : Nat) {s : List Char},
    matchAt (l.drop i) = some s → (searchUrl l).isSome := by
  intro l
  induction l with
  | nil =>
    intro i s h
    rw [List.drop_nil] at h
    rw [matchAt_nil] at h
    exact absurd h (by simp)
  | cons c t ih =>
    intro i s h
    unfold searchUrl
    cases hm : matchAt (c :: t) with
    | some m => simp
    | none =>
      cases i with
      | zero => rw [List.drop_zero] at h; exact absurd h (by simp [hm])
      | succ i2 =>
        rw [List.drop_succ_cons] at h
        exact ih i2 h

/-- The search succeeds exactly when some accepted token occurs as a
substring. -/
theorem searchUrl_isSome_iff {l : List Char} :
    (searchUrl l).isSome ↔ ∃ s, relaxedTok s ∧ ∃ i, s <+: l.drop i := by
  constructor
  · intro h
    obtain ⟨s, hs⟩ := Option.isSome_iff_exists.mp h
    obtain ⟨i, h1, _⟩ := searchUrl_eq_some hs
    obtain ⟨ht, hp⟩ := matchAt_eq_some h1
    exact ⟨s, ht, i, hp⟩
  · rintro ⟨s, ht, i, hp⟩
    have h1 := matchAt_isSome ht hp
    obtain ⟨m, hm⟩ := Option.isSome_iff_exists.mp h1
    exact searchUrl_isSome_of i hm

/-- Every well-formed token (literal dots) is accepted by the pattern. -/
theorem wellFormed_relaxed {s : List Char} (h : wellFormedTok s) : relaxedTok s := by
  obtain ⟨id1, id2, h1, h2, h3, h4, rfl⟩ := h
  refine ⟨'.', '.', id1, id2, by decide, by decide, h1, h2, h3, h4, ?_⟩
  have e : "https://dl.todesktop.com/".toList = lit1 ++ '.' :: (lit2 ++ '.' :: lit3) := by decide
  have e2 : "/builds/".toList = lit4 := by decide
  rw [e, e2]
  simp [List.append_assoc]

/-! ## Helper lemmas about the dispatcher model -/

/-- Two strings with equal character data are equal. -/
theorem str_eq_of_data {a b : String} (h : a.data = b.data) : a = b := by
  cases a
  cases b
  exact congrArg String.mk h

/-- A string that does not end in a slash is unchanged by the
trailing-slash stripping of yarl's path join. -/
theorem stripSlashes_eq_self {s : String} (h : s.data.getLast? ≠ some '/') :
    stripSlashes s = s := by
  obtain ⟨d⟩ := s
  unfold stripSlashes
  cases hd : d.reverse with
  | nil =>
    have hnil : d = [] := by simpa using congrArg List.reverse hd
    subst hnil
    rfl
  | cons c t =>
    have hlast : d.getLast? = some c := by
      rw [← List.head?_reverse, hd]
      rfl
    have hc : (c = '/') = False := by
      simp only [eq_iff_iff, iff_false]
      intro hcc
      rw [hcc] at hlast
      exact h hlast
    rw [List.dropWhile_cons]
    have hdec : (decide (c = '/')) = false := by simp [hc]
    rw [hdec]
    simp only [Bool.false_eq_true, if_false]
    rw [← hd, List.reverse_reverse]

/-- yarl's path join on a base with no trailing slash is plain
concatenation with a single separating slash. -/
theorem yarlDiv_no_slash {base : String} (seg : String)
    (h : base.data.getLast? ≠ some '/') :
    yarlDiv base seg = base ++ "/" ++ seg := by
  unfold yarlDiv
  rw [stripSlashes_eq_self h]

/-- The last character of an appended string comes from the (nonempty)
second part. -/
theorem data_getLast_append (a b : String) (hb : b.data ≠ []) :
    (a ++ b).data.getLast? = b.data.getLast? := by
  rw [String.data_append, List.getLast?_append]
  obtain ⟨x, hx⟩ := Option.isSome_iff_exists.mp (List.getLast?_isSome.mpr hb)
  rw [hx]
  rfl

/-- The dispatcher sends nothing when the build status is not a success. -/
theorem handle_webhook_sent_nonsuccess (cfg : BotConfig) (eff : Effects)
    (room : String) (data : Payload) (st : String)
    (h1 : data.build_status = some st) (h2 : st ≠ "success") :
    (handle_webhook cfg eff room data).2.sent = [] := by
  unfold handle_webhook
  split
  · rfl
  split
  · rfl
  split
  · rfl
  case _ st2 heq =>
    rw [h1] at heq
    injection heq with he
    subst he
    rw [if_neg h2]
    rfl

/-! ## Claim theorems -/

/-- C1 (amended): the build-log scan used by `find_todesktop_build` /
`handle_todesktop` succeeds exactly when the log contains a substring
accepted by `url_pattern`, in which the two unescaped dots match an
arbitrary non-newline character; when it succeeds it returns, verbatim, an
accepted substring occurring at the leftmost position where any accepted
substring starts.  Every well-formed
`https://dl.todesktop.com/<lowercase-alphanumeric>/builds/<lowercase-alphanumeric>`
substring is accepted, so a log containing one always yields a match —
but the returned match need not itself be well-formed. -/
theorem C1_url_scan (l : List Char) :
    ((searchUrl l).isSome ↔ ∃ s, relaxedTok s ∧ ∃ i, s <+: l.drop i)
  ∧ (∀ s, searchUrl l = some s →
      relaxedTok s ∧ ∃ i, s <+: l.drop i ∧
        ∀ j, j < i → ¬ ∃ t, relaxedTok t ∧ t <+: l.drop j)
  ∧ (∀ s, wellFormedTok s → relaxedTok s) := by
  refine ⟨searchUrl_isSome_iff, ?_, fun s => wellFormed_relaxed⟩
  intro s hs
  obtain ⟨i, hm, hnone⟩ := searchUrl_eq_some hs
  obtain ⟨ht, hp⟩ := matchAt_eq_some hm
  refine ⟨ht, i, hp, ?_⟩
  rintro j hj ⟨t, htok, hpre⟩
  have hsome := matchAt_isSome htok hpre
  rw [hnone j hj] at hsome
  exact absurd hsome (by simp)

/-- Witness for C1: a concrete log text containing a well-formed URL makes
the scan succeed, through the amended theorem. -/
theorem C1_url_scan_witness :
    (searchUrl "see https://dl.todesktop.com/abc123/builds/def456 ok".data).isSome :=
  (C1_url_scan "see https://dl.todesktop.com/abc123/builds/def456 ok".data).1.mpr
    ⟨"https://dl.todesktop.com/abc123/builds/def456".data,
     (C1_url_scan "see https://dl.todesktop.com/abc123/builds/def456 ok".data).2.2
       "https://dl.todesktop.com/abc123/builds/def456".data
       ⟨"abc123".data, "def456".data, by decide, by decide, by decide, by decide, by decide⟩,
     4, by decide⟩

/-- Counterexample to C1 as stated: this log text contains no well-formed
`https://dl.todesktop.com/<id>/builds/<id>` substring (its dots are the
letter X), yet the scan returns a match rather than nothing, because the
dots in `url_pattern` are unescaped. -/
theorem C1_counterexample :
    (¬ ∃ s, wellFormedTok s ∧ ∃ i, s <+: "https://dlXtodesktopXcom/a/builds/b".data.drop i)
  ∧ find_build_url "https://dlXtodesktopXcom/a/builds/b"
      = some "https://dlXtodesktopXcom/a/builds/b" := by
  constructor
  · rintro ⟨s, hw, i, hp⟩
    obtain ⟨id1, id2, h1, h2, h3, h4, rfl⟩ := hw
    have hhead : "https://dl.todesktop.com/".toList <+:
        "https://dlXtodesktopXcom/a/builds/b".data.drop i := by
      refine List.IsPrefix.trans ⟨id1 ++ ("/builds/".toList ++ id2), ?_⟩ hp
      simp [List.append_assoc]
    by_cases hi : i < 35
    · have hb : ∀ j, j < 35 →
          ¬ ("https://dl.todesktop.com/".toList <+:
            "https://dlXtodesktopXcom/a/builds/b".data.drop j) := by decide
      exact hb i hi hhead
    · have hlen : "https://dlXtodesktopXcom/a/builds/b".data.length ≤ i := by
        have h35 : "https://dlXtodesktopXcom/a/builds/b".data.length = 35 := by decide
        omega
      rw [List.drop_eq_nil_of_le hlen] at hhead
      obtain ⟨t, ht⟩ := hhead
      have hb := List.append_eq_nil.mp ht
      exact absurd hb.1 (by decide)
  · rfl

/-- C4: a request whose `X-Gitlab-Token` header is missing, or differs
from the configured secret, yields a 401 response whose content does not
depend on the body or room parameter, with no side effects (no parsing,
lookup, resolution or delivery is observable). -/
theorem C4_auth_gate :
    (∀ (cfg : BotConfig) (eff : Effects) (room : Option String) (body : BodyParse),
      webhook cfg eff ⟨none, room, body⟩
        = (.resp 401 "401: Unauthorized\nMissing auth token header\n", emptyTrace))
  ∧ (∀ (cfg : BotConfig) (eff : Effects) (t : String) (room : Option String)
      (body : BodyParse), t ≠ cfg.webhook_secret →
      webhook cfg eff ⟨some t, room, body⟩
        = (.resp 401 "401: Unauthorized\n", emptyTrace)) := by
  constructor
  · intro cfg eff room body
    rfl
  · intro cfg eff t room body h
    simp [webhook, h]

/-- Witness for C4 at a concrete mismatched token. -/
theorem C4_auth_gate_witness :
    webhook ⟨"s3cret", "https://gitlab.example", "tok", []⟩
      ⟨fun _ _ => .ok "", fun _ _ => .ok ()⟩
      ⟨some "wrong", some "!room:example.org", .badJson⟩
      = (.resp 401 "401: Unauthorized\n", emptyTrace) :=
  C4_auth_gate.2 _ _ "wrong" _ _ (by decide)

/-- C5: an authenticated, well-formed request naming a project ID not in
the configured projects yields the 404 Unknown-project response, with no
observable resolver activity (the empty trace) and a result independent
of the external-effect oracles. -/
theorem C5_unknown_project (cfg : BotConfig) (eff : Effects) (room : String)
    (data : Payload) (pid : Nat)
    (h1 : data.project_id = some pid) (h2 : dictGet cfg.projects pid = none) :
    webhook cfg eff ⟨some cfg.webhook_secret, some room, .ok data⟩
      = (.resp 404 "404: Unknown project ID", emptyTrace) := by
  simp [webhook, handle_webhook, h1, h2]

/-- Witness for C5 at a concrete configuration and payload. -/
theorem C5_unknown_project_witness :
    webhook ⟨"s", "g", "t", [(1, ⟨"android", [], [], none⟩)]⟩
      ⟨fun _ _ => .ok "", fun _ _ => .ok ()⟩
      ⟨some "s", some "!r:x", .ok ⟨some 2, none, none, none, none, none⟩⟩
      = (.resp 404 "404: Unknown project ID", emptyTrace) :=
  C5_unknown_project _ _ _ _ 2 rfl (by decide)

/-- C9: an authenticated request with a room and a valid JSON body lacking
the `project_id` key entirely gets the same 404 Unknown-project response
as a request for an unknown project (the two cases are indistinguishable
at the public interface), not a 400. -/
theorem C9_missing_project_id (cfg : BotConfig) (eff : Effects) (room : String)
    (data : Payload) (h : data.project_id = none) :
    webhook cfg eff ⟨some cfg.webhook_secret, some room, .ok data⟩
      = (.resp 404 "404: Unknown project ID", emptyTrace)
  ∧ ∀ (data2 : Payload) (pid : Nat), data2.project_id = some pid →
      dictGet cfg.projects pid = none →
      webhook cfg eff ⟨some cfg.webhook_secret, some room, .ok data2⟩
        = webhook cfg eff ⟨some cfg.webhook_secret, some room, .ok data⟩ := by
  constructor
  · simp [webhook, handle_webhook, h]
  · intro data2 pid h1 h2
    simp [webhook, handle_webhook, h, h1, h2]

/-- Witness for C9: a body with no `project_id` key at all. -/
theorem C9_missing_project_id_witness :
    webhook ⟨"s", "g", "t", [(1, ⟨"android", [], [], none⟩)]⟩
      ⟨fun _ _ => .ok "", fun _ _ => .ok ()⟩
      ⟨some "s", some "!r:x", .ok ⟨none, none, some "success", none, none, none⟩⟩
      = (.resp 404 "404: Unknown project ID", emptyTrace) :=
  (C9_missing_project_id _ _ _ _ rfl).1

/-- Counterexample to C3 as stated: a request whose build status is not
"success" but whose project ID is unknown is answered with the 404
Unknown-project response, not with 200 "Non-success webhook ignored" —
the project lookup runs before the status gate. -/
theorem C3_counterexample :
    webhook ⟨"s", "g", "t", []⟩ ⟨fun _ _ => .ok "", fun _ _ => .ok ()⟩
      ⟨some "s", some "!r:x", .ok ⟨some 7, none, some "failed", none, none, none⟩⟩
      = (.resp 404 "404: Unknown project ID", emptyTrace)
  ∧ webhook ⟨"s", "g", "t", []⟩ ⟨fun _ _ => .ok "", fun _ _ => .ok ()⟩
      ⟨some "s", some "!r:x", .ok ⟨some 7, none, some "failed", none, none, none⟩⟩
      ≠ (.resp 200 "200: OK\nNon-success webhook ignored\n", emptyTrace) :=
  ⟨rfl, by decide⟩

/-- C3 (amended): a request whose parsed body carries a build status other
than "success" never triggers a chat delivery; and when such a request is
authenticated, carries a room, and names a configured project, the
response is exactly 200 with outcome "Non-success webhook ignored" —
requests failing an earlier stage instead get that stage's error response
(still with no delivery). -/
theorem C3_nonsuccess_gate :
    (∀ (cfg : BotConfig) (eff : Effects) (tok room : Option String)
      (data : Payload) (st : String),
      data.build_status = some st → st ≠ "success" →
      (webhook cfg eff ⟨tok, room, .ok data⟩).2.sent = [])
  ∧ (∀ (cfg : BotConfig) (eff : Effects) (room : String) (data : Payload)
      (pid : Nat) (proj : ProjectCfg) (st : String),
      data.project_id = some pid → dictGet cfg.projects pid = some proj →
      data.build_status = some st → st ≠ "success" →
      webhook cfg eff ⟨some cfg.webhook_secret, some room, .ok data⟩
        = (.resp 200 "200: OK\nNon-success webhook ignored\n", emptyTrace)) := by
  constructor
  · intro cfg eff tok room data st h1 h2
    cases tok with
    | none => rfl
    | some t =>
      by_cases ht : t = cfg.webhook_secret
      · cases room with
        | none => simp [webhook, ht, emptyTrace]
        | some r =>
          have hs := handle_webhook_sent_nonsuccess cfg eff r data st h1 h2
          rcases hw : handle_webhook cfg eff r data with ⟨res, tr⟩
          rw [hw] at hs
          have hs2 : tr.sent = [] := hs
          rcases res with err | extra
          · rcases err with ⟨s, t2⟩ | k | m
            all_goals simp [webhook, ht, hw, hs2]
          · simp [webhook, ht, hw, hs2]
      · simp [webhook, ht, emptyTrace]
  · intro cfg eff room data pid proj st h1 h2 h3 h4
    simp [webhook, handle_webhook, h1, h2, h3, h4]

/-- Witness for C3 (amended) at a concrete non-success request. -/
theorem C3_nonsuccess_gate_witness :
    (webhook ⟨"s", "g", "t", [(7, ⟨"android", [], [], none⟩)]⟩
        ⟨fun _ _ => .ok "", fun _ _ => .ok ()⟩
        ⟨some "s", some "!r:x", .ok ⟨some 7, none, some "failed", none, none, none⟩⟩).2.sent = []
  ∧ webhook ⟨"s", "g", "t", [(7, ⟨"android", [], [], none⟩)]⟩
      ⟨fun _ _ => .ok "", fun _ _ => .ok ()⟩
      ⟨some "s", some "!r:x", .ok ⟨some 7, none, some "failed", none, none, none⟩⟩
      = (.resp 200 "200: OK\nNon-success webhook ignored\n", emptyTrace) :=
  ⟨C3_nonsuccess_gate.1 _ _ _ _ _ "failed" rfl (by decide),
   C3_nonsuccess_gate.2 _ _ _ _ 7 ⟨"android", [], [], none⟩ "failed" rfl (by decide) rfl
     (by decide)⟩

/-- C6: for an android-type project whose `apk_path_map` contains the
payload's build name, the resolver returns `apk_url` equal to the plain
concatenation of the repository homepage, the jobs path segment, the
build ID, the artifacts-browse segment and the mapped apk path (exactly
the f-string of the source).  `handle_android` is a pure
function of the project and payload — it takes no effect oracle, so it
can make no network call. -/
theorem C6_android_url (proj : ProjectCfg) (m : List (String × String))
    (bn apkPath home : String) (jid : Nat)
    (pid : Option Nat) (st sha : Option String)
    (hm : proj.apk_path_map = some m) (hp : dictGet m bn = some apkPath) :
    handle_android proj ⟨pid, some jid, st, some bn, sha, some ⟨some home⟩⟩
      = .ok [("apk_url",
          home ++ "/-/jobs/" ++ toString jid ++ "/artifacts/browse/" ++ apkPath)] := by
  simp [handle_android, hm, hp]

/-- Witness for C6 at the spec's concrete example. -/
theorem C6_android_url_witness :
    handle_android
        ⟨"android", [], [], some [("release", "app/build/outputs/app-release.apk")]⟩
        ⟨some 1, some 42, some "success", some "release", some "abc",
         some ⟨some "https://example.test/org/app"⟩⟩
      = .ok [("apk_url",
          "https://example.test/org/app" ++ "/-/jobs/" ++ toString 42
            ++ "/artifacts/browse/" ++ "app/build/outputs/app-release.apk")]
  ∧ "https://example.test/org/app" ++ "/-/jobs/" ++ toString 42
        ++ "/artifacts/browse/" ++ "app/build/outputs/app-release.apk"
      = "https://example.test/org/app/-/jobs/42/artifacts/browse/app/build/outputs/app-release.apk" :=
  ⟨C6_android_url _ _ "release" _ _ 42 _ _ _ rfl rfl, by decide⟩

/-- Counterexample to C2 as stated: with a configured project whose type
"ios" is not in the handler table, an authenticated success webhook makes
the dispatcher raise a KeyError that escapes the endpoint uncaught — it
is not caught at the dispatcher boundary and not converted there into a
500 response. -/
theorem C2_counterexample :
    webhook ⟨"s", "g", "t",
        [(7, ⟨"ios", [("release", "R")], [TemplatePart.field "build_name"], none⟩)]⟩
      ⟨fun _ _ => .ok "", fun _ _ => .ok ()⟩
      ⟨some "s", some "!r:x",
       .ok ⟨some 7, some 1, some "success", some "release", some "abc", some ⟨some "h"⟩⟩⟩
      = (.unhandled (.keyErr "ios"), emptyTrace) := rfl

/-- C2 (amended): of the dispatcher's fatal errors, the CI trace-fetch
failure and the chat-delivery failure are caught, logged, and converted
to generic 500 internal-error responses; but an unrecognized project
type, an unmapped entry in `apk_path_map`, and an unmapped build name in
`build_name_map` raise KeyError exceptions that escape the dispatcher
uncaught (their conversion to a response is left to the serving
framework), with no plugin-level logging. -/
theorem C2_fatal_errors :
    (∀ (cfg : BotConfig) (eff : Effects) (room : String) (data : Payload)
      (pid : Nat) (proj : ProjectCfg),
      data.project_id = some pid → dictGet cfg.projects pid = some proj →
      data.build_status = some "success" →
      proj.type ≠ "todesktop" → proj.type ≠ "android" →
      handle_webhook cfg eff room data = (.error (.keyErr proj.type), emptyTrace))
  ∧ (∀ (cfg : BotConfig) (eff : Effects) (room : String) (data : Payload)
      (pid jid : Nat) (proj : ProjectCfg),
      data.project_id = some pid → data.build_id = some jid →
      dictGet cfg.projects pid = some proj →
      data.build_status = some "success" → proj.type = "todesktop" →
      eff.fetchTrace pid jid = .error () →
      handle_webhook cfg eff room data
        = (.error (.http 500 fetchFailText),
           ⟨[(pid, jid)], [], ["Error finding todesktop build ID"]⟩))
  ∧ (∀ (cfg : BotConfig) (eff : Effects) (room : String) (data : Payload)
      (pid : Nat) (proj : ProjectCfg) (m : List (String × String)) (bn : String),
      data.project_id = some pid → dictGet cfg.projects pid = some proj →
      data.build_status = some "success" → proj.type = "android" →
      proj.apk_path_map = some m → data.build_name = some bn →
      dictGet m bn = none →
      handle_webhook cfg eff room data = (.error (.keyErr bn), emptyTrace))
  ∧ (∀ (cfg : BotConfig) (eff : Effects) (room : String)
      (pid jid : Nat) (proj : ProjectCfg) (m : List (String × String))
      (bn sha home apkPath : String),
      dictGet cfg.projects pid = some proj → proj.type = "android" →
      proj.apk_path_map = some m → dictGet m bn = some apkPath →
      dictGet proj.build_name_map bn = none →
      handle_webhook cfg eff room
          ⟨some pid, some jid, some "success", some bn, some sha, some ⟨some home⟩⟩
        = (.error (.keyErr bn), emptyTrace))
  ∧ (∀ (cfg : BotConfig) (eff : Effects) (room : String)
      (pid jid : Nat) (proj : ProjectCfg) (m : List (String × String))
      (bn sha home apkPath disp msg : String),
      dictGet cfg.projects pid = some proj → proj.type = "android" →
      proj.apk_path_map = some m → dictGet m bn = some apkPath →
      dictGet proj.build_name_map bn = some disp →
      renderTemplate proj.message_format
        [("apk_url", home ++ "/-/jobs/" ++ toString jid ++ "/artifacts/browse/" ++ apkPath),
         ("build_name", disp), ("commit_hash", strTake sha 8),
         ("commit_url", yarlDiv (yarlDiv (yarlDiv home "-") "commit") sha)] = .ok msg →
      eff.send room msg = .error () →
      handle_webhook cfg eff room
          ⟨some pid, some jid, some "success", some bn, some sha, some ⟨some home⟩⟩
        = (.error (.http 500 sendFailText),
           ⟨[], [(room, msg)], ["Error sending message to Matrix"]⟩)) := by
  refine ⟨?_, ?_, ?_, ?_, ?_⟩
  · intro cfg eff room data pid proj h1 h2 h3 h4 h5
    simp [handle_webhook, h1, h2, h3, h4, h5]
  · intro cfg eff room data pid jid proj h1 h2 h3 h4 h5 h6
    simp [handle_webhook, handle_todesktop, h1, h2, h3, h4, h5, h6]
  · intro cfg eff room data pid proj m bn h1 h2 h3 h4 h5 h6 h7
    simp [handle_webhook, handle_android, h1, h2, h3, h4, h5, h6, h7]
  · intro cfg eff room pid jid proj m bn sha home apkPath h1 h2 h3 h4 h5
    simp [handle_webhook, handle_android, composeMessage, h1, h2, h3, h4, h5]
  · intro cfg eff room pid jid proj m bn sha home apkPath disp msg h1 h2 h3 h4 h5 h6 h7
    simp [handle_webhook, handle_android, composeMessage, emptyTrace,
      h1, h2, h3, h4, h5, h6, h7]

/-- Witness for C2 (amended): all five error paths at concrete inputs —
an "ios"-typed project, a failing trace fetch, an empty `apk_path_map`,
an empty `build_name_map`, and a failing Matrix send. -/
theorem C2_fatal_errors_witness :
    handle_webhook ⟨"s", "g", "t", [(7, ⟨"ios", [], [], none⟩)]⟩
        ⟨fun _ _ => .ok "", fun _ _ => .ok ()⟩ "!r:x"
        ⟨some 7, some 1, some "success", none, none, none⟩
      = (.error (.keyErr "ios"), emptyTrace)
  ∧ handle_webhook ⟨"s", "g", "t", [(7, ⟨"todesktop", [], [], none⟩)]⟩
        ⟨fun _ _ => .error (), fun _ _ => .ok ()⟩ "!r:x"
        ⟨some 7, some 3, some "success", none, none, none⟩
      = (.error (.http 500 fetchFailText),
         ⟨[(7, 3)], [], ["Error finding todesktop build ID"]⟩)
  ∧ handle_webhook ⟨"s", "g", "t", [(7, ⟨"android", [], [], some []⟩)]⟩
        ⟨fun _ _ => .ok "", fun _ _ => .ok ()⟩ "!r:x"
        ⟨some 7, some 1, some "success", some "release", none, none⟩
      = (.error (.keyErr "release"), emptyTrace)
  ∧ handle_webhook
        ⟨"s", "g", "t", [(7, ⟨"android", [], [], some [("release", "a.apk")]⟩)]⟩
        ⟨fun _ _ => .ok "", fun _ _ => .ok ()⟩ "!r:x"
        ⟨some 7, some 1, some "success", some "release", some "abc", some ⟨some "h"⟩⟩
      = (.error (.keyErr "release"), emptyTrace)
  ∧ handle_webhook
        ⟨"s", "g", "t",
         [(7, ⟨"android", [("release", "R")], [TemplatePart.field "build_name"],
               some [("release", "a.apk")]⟩)]⟩
        ⟨fun _ _ => .ok "", fun _ _ => .error ()⟩ "!r:x"
        ⟨some 7, some 1, some "success", some "release", some "abc", some ⟨some "h"⟩⟩
      = (.error (.http 500 sendFailText),
         ⟨[], [("!r:x", "R")], ["Error sending message to Matrix"]⟩) :=
  ⟨C2_fatal_errors.1 ⟨"s", "g", "t", [(7, ⟨"ios", [], [], none⟩)]⟩
     ⟨fun _ _ => .ok "", fun _ _ => .ok ()⟩ "!r:x"
     ⟨some 7, some 1, some "success", none, none, none⟩ 7 ⟨"ios", [], [], none⟩
     rfl rfl rfl (by decide) (by decide),
   C2_fatal_errors.2.1 ⟨"s", "g", "t", [(7, ⟨"todesktop", [], [], none⟩)]⟩
     ⟨fun _ _ => .error (), fun _ _ => .ok ()⟩ "!r:x"
     ⟨some 7, some 3, some "success", none, none, none⟩ 7 3 ⟨"todesktop", [], [], none⟩
     rfl rfl rfl rfl rfl rfl,
   C2_fatal_errors.2.2.1 ⟨"s", "g", "t", [(7, ⟨"android", [], [], some []⟩)]⟩
     ⟨fun _ _ => .ok "", fun _ _ => .ok ()⟩ "!r:x"
     ⟨some 7, some 1, some "success", some "release", none, none⟩ 7
     ⟨"android", [], [], some []⟩ [] "release" rfl rfl rfl rfl rfl rfl rfl,
   C2_fatal_errors.2.2.2.1
     ⟨"s", "g", "t", [(7, ⟨"android", [], [], some [("release", "a.apk")]⟩)]⟩
     ⟨fun _ _ => .ok "", fun _ _ => .ok ()⟩ "!r:x" 7 1
     ⟨"android", [], [], some [("release", "a.apk")]⟩ [("release", "a.apk")]
     "release" "abc" "h" "a.apk" rfl rfl rfl rfl rfl,
   C2_fatal_errors.2.2.2.2
     ⟨"s", "g", "t",
      [(7, ⟨"android", [("release", "R")], [TemplatePart.field "build_name"],
            some [("release", "a.apk")]⟩)]⟩
     ⟨fun _ _ => .ok "", fun _ _ => .error ()⟩ "!r:x" 7 1
     ⟨"android", [("release", "R")], [TemplatePart.field "build_name"],
      some [("release", "a.apk")]⟩ [("release", "a.apk")]
     "release" "abc" "h" "a.apk" "R" "R" rfl rfl rfl rfl rfl rfl rfl⟩

/-- Strings append associatively. -/
theorem str_append_assoc (a b c : String) : a ++ b ++ c = a ++ (b ++ c) :=
  str_eq_of_data (by simp [String.data_append, List.append_assoc])

/-- Counterexample to C7 as stated: with a repository homepage ending in a
slash, the composed `commit_url` parameter (here surfaced as the whole
message through a template consisting only of that placeholder) is not
the plain concatenation of the homepage, the commit path separator and
the sha — yarl's path join collapses the trailing slash. -/
theorem C7_counterexample :
    handle_webhook
        ⟨"s", "g", "t",
         [(7, ⟨"android", [("release", "Release")], [TemplatePart.field "commit_url"],
               some [("release", "app.apk")]⟩)]⟩
        ⟨fun _ _ => .ok "", fun _ _ => .ok ()⟩ "!r:x"
        ⟨some 7, some 42, some "success", some "release", some "abcdef1234567890",
         some ⟨some "https://example.test/org/app/"⟩⟩
      = (.ok "Notification sent",
         ⟨[], [("!r:x", "https://example.test/org/app/-/commit/abcdef1234567890")], []⟩)
  ∧ "https://example.test/org/app/-/commit/abcdef1234567890"
      ≠ "https://example.test/org/app/" ++ "/-/commit/" ++ "abcdef1234567890" :=
  ⟨rfl, by decide⟩

/-- C7 (amended): for every composed message, the base parameters are the
mapped build name, the first 8 characters of the sha, and the commit URL,
merged under the resolver's extra parameters and substituted into
`message_format`; and provided the repository homepage does not end in a
slash, the commit URL equals the plain concatenation of the homepage,
the commit path separator and the sha (yarl's path join collapses
trailing slashes of the base, so for a homepage ending in a slash the
two differ). -/
theorem C7_compose_params (proj : ProjectCfg) (extra : List (String × String))
    (pid jid : Option Nat) (st : Option String) (bn disp sha home : String)
    (hbn : dictGet proj.build_name_map bn = some disp)
    (hsl : home.data.getLast? ≠ some '/') :
    composeMessage proj ⟨pid, jid, st, some bn, some sha, some ⟨some home⟩⟩ extra
      = renderTemplate proj.message_format
          (extra ++ [("build_name", disp), ("commit_hash", strTake sha 8),
                     ("commit_url", home ++ "/-/commit/" ++ sha)]) := by
  have h1 : yarlDiv home "-" = home ++ "/" ++ "-" := yarlDiv_no_slash _ hsl
  have hl1 : (home ++ "/" ++ "-").data.getLast? ≠ some '/' := by
    rw [data_getLast_append _ "-" (by decide)]
    decide
  have h2 : yarlDiv (home ++ "/" ++ "-") "commit"
      = home ++ "/" ++ "-" ++ "/" ++ "commit" := yarlDiv_no_slash _ hl1
  have hl2 : (home ++ "/" ++ "-" ++ "/" ++ "commit").data.getLast? ≠ some '/' := by
    rw [data_getLast_append _ "commit" (by decide)]
    decide
  have h3 : yarlDiv (home ++ "/" ++ "-" ++ "/" ++ "commit") sha
      = home ++ "/" ++ "-" ++ "/" ++ "commit" ++ "/" ++ sha := yarlDiv_no_slash _ hl2
  have hfold : home ++ "/" ++ "-" ++ "/" ++ "commit" ++ "/" ++ sha
      = home ++ "/-/commit/" ++ sha := by
    apply str_eq_of_data
    simp only [String.data_append, List.append_assoc]
    have hlit : "/".data ++ ("-".data ++ ("/".data ++ ("commit".data ++ ("/".data ++ sha.data))))
        = "/-/commit/".data ++ sha.data := by
      have hc : "/".data ++ ("-".data ++ ("/".data ++ ("commit".data ++ "/".data)))
          = "/-/commit/".data := by decide
      rw [← hc]
      simp [List.append_assoc]
    rw [hlit]
  have hurl : yarlDiv (yarlDiv (yarlDiv home "-") "commit") sha
      = home ++ "/-/commit/" ++ sha := by
    rw [h1, h2, h3, hfold]
  simp [composeMessage, hbn, hurl]

/-- Witness for C7 (amended): the spec's sha example — the composed
commit hash is exactly the first 8 characters, and the commit URL is the
plain concatenation for a homepage with no trailing slash. -/
theorem C7_compose_params_witness :
    composeMessage
        ⟨"todesktop", [("x", "X Build")],
         [TemplatePart.field "commit_hash", TemplatePart.lit " ",
          TemplatePart.field "commit_url"], none⟩
        ⟨some 7, some 42, some "success", some "x", some "abcdef1234567890",
         some ⟨some "https://example.test/org/app"⟩⟩ []
      = .ok "abcdef12 https://example.test/org/app/-/commit/abcdef1234567890" :=
  (C7_compose_params
      ⟨"todesktop", [("x", "X Build")],
       [TemplatePart.field "commit_hash", TemplatePart.lit " ",
        TemplatePart.field "commit_url"], none⟩
      [] (some 7) (some 42) (some "success") "x" "X Build" "abcdef1234567890"
      "https://example.test/org/app" rfl (by decide)).trans rfl

/-- C10: for a payload whose sha has fewer than 8 characters, message
composition does not fail at the truncation: the `commit_hash` parameter
is the entire sha string. -/
theorem C10_short_sha (proj : ProjectCfg) (extra : List (String × String))
    (pid jid : Option Nat) (st : Option String) (bn disp sha home : String)
    (hbn : dictGet proj.build_name_map bn = some disp)
    (hlen : sha.data.length < 8) :
    composeMessage proj ⟨pid, jid, st, some bn, some sha, some ⟨some home⟩⟩ extra
      = renderTemplate proj.message_format
          (extra ++ [("build_name", disp), ("commit_hash", sha),
                     ("commit_url", yarlDiv (yarlDiv (yarlDiv home "-") "commit") sha)]) := by
  have htake : strTake sha 8 = sha := by
    unfold strTake
    rw [List.take_of_length_le (Nat.le_of_lt hlen)]
  simp [composeMessage, hbn, htake]

/-- Witness for C10 at a 3-character sha. -/
theorem C10_short_sha_witness :
    composeMessage
        ⟨"todesktop", [("x", "X")], [TemplatePart.field "commit_hash"], none⟩
        ⟨some 7, some 1, some "success", some "x", some "abc", some ⟨some "h"⟩⟩ []
      = .ok "abc" :=
  (C10_short_sha ⟨"todesktop", [("x", "X")], [TemplatePart.field "commit_hash"], none⟩
      [] (some 7) (some 1) (some "success") "x" "X" "abc" "h" rfl (by decide)).trans rfl

end Todesktop
